import Mathlib

/-!
# Verification of the VisionWorkbench stereo-correlation core

A shallow embedding of the code in `src/vw/Stereo/CorrelatorView.h`,
`src/vw/Image/ImageResource.h` and the Levenberg-Marquardt optimizer
(`Optimization.h`), together with theorems settling the specification
claims about it.

Machine integers (`int32`) are modelled as `ℤ`; `uint32` fields record
the wrap-around `% 2^32` where an assignment from a signed quantity
occurs; `float`/`double` quantities are modelled as `ℚ` (no claim below
depends on rounding).  Images are modelled as total functions from
coordinates to pixel values together with their dimensions.
-/

namespace VW

/-- `vw::Vector2i`: a pair of 32-bit integers, modelled as `ℤ × ℤ`. -/
structure Vector2i where
  x : ℤ
  y : ℤ
deriving DecidableEq

instance : Add Vector2i := ⟨fun a b => ⟨a.x + b.x, a.y + b.y⟩⟩

instance : Sub Vector2i := ⟨fun a b => ⟨a.x - b.x, a.y - b.y⟩⟩

/-- `vw::BBox2i`: an axis-aligned integer rectangle, min corner
inclusive, max corner exclusive. -/
structure BBox2i where
  minPt : Vector2i
  maxPt : Vector2i
deriving DecidableEq

/-- `BBox2i(x, y, w, h)` constructor: min `(x,y)`, max `(x+w, y+h)`. -/
def BBox2i.mk4 (x y w h : ℤ) : BBox2i := ⟨⟨x, y⟩, ⟨x + w, y + h⟩⟩

def BBox2i.width (b : BBox2i) : ℤ := b.maxPt.x - b.minPt.x

def BBox2i.height (b : BBox2i) : ℤ := b.maxPt.y - b.minPt.y

/-- A bbox is empty iff its width or height is non-positive. -/
def BBox2i.isEmpty (b : BBox2i) : Prop := b.width ≤ 0 ∨ b.height ≤ 0

instance (b : BBox2i) : Decidable b.isEmpty := by
  unfold BBox2i.isEmpty
  infer_instance

/-- The errors thrown by the embedded code (`vw::ArgumentErr`,
`vw::NoImplErr`). -/
inductive VWError where
  | argumentErr (msg : String)
  | noImplErr (msg : String)
deriving DecidableEq

/-- The shape data of an `ImageViewBase` as consulted by the
`CorrelatorView` constructor: `cols()`, `rows()`, `channels()`,
`planes()`. -/
structure ViewFormat where
  cols : ℤ
  rows : ℤ
  channels : ℤ
  planes : ℤ
deriving DecidableEq

/-- The configuration state of a `CorrelatorView` object: the settings
members `m_search_range`, `m_kernel_size`, `m_do_h_subpixel`,
`m_do_v_subpixel`, `m_do_affine_subpixel`, `m_cross_corr_threshold`,
`m_corr_score_threshold`, `m_debug_prefix`. -/
structure CorrelatorSettings where
  search_range : BBox2i
  kernel_size : Vector2i
  do_h_subpixel : Bool
  do_v_subpixel : Bool
  do_affine_subpixel : Bool
  cross_corr_threshold : ℚ
  corr_score_threshold : ℚ
  debugTag : String
deriving DecidableEq

/-- The "sensible default values" installed by the `CorrelatorView`
constructor: search range `BBox2i(-50,-50,100,100)`, kernel `(24,24)`,
horizontal and vertical subpixel on, affine subpixel off,
cross-correlation threshold `2.0`, correlation-score threshold `1.3`. -/
def default_settings : CorrelatorSettings :=
  { search_range := BBox2i.mk4 (-50) (-50) 100 100
    kernel_size := ⟨24, 24⟩
    do_h_subpixel := true
    do_v_subpixel := true
    do_affine_subpixel := false
    cross_corr_threshold := 2
    corr_score_threshold := 13/10
    debugTag := "" }

/-- `CorrelatorView::CorrelatorView(left, right, preproc)`: asserts that
the two images agree in columns and rows, and that both are
single-channel and single-plane (`VW_ASSERT` throws `ArgumentErr`
otherwise); then installs `default_settings`. -/
def correlatorView_construct (left right : ViewFormat) :
    Except VWError CorrelatorSettings :=
  if ¬ (left.cols = right.cols ∧ left.rows = right.rows) then
    .error (.argumentErr "input image dimensions do not agree")
  else if ¬ (left.channels = 1 ∧ left.planes = 1 ∧
             right.channels = 1 ∧ right.planes = 1) then
    .error (.argumentErr "multi-channel, multi-plane images not supported")
  else
    .ok default_settings

/-- Whether construction of a `CorrelatorView` succeeds (no exception
escapes the constructor). -/
def constructionSucceeds (left right : ViewFormat) : Bool :=
  match correlatorView_construct left right with
  | .ok _ => true
  | .error _ => false

/-- `CorrelatorView::set_search_range`: plain assignment, no
validation. -/
def set_search_range (s : CorrelatorSettings) (range : BBox2i) :
    CorrelatorSettings :=
  { s with search_range := range }

/-- `CorrelatorView::set_kernel_size`: plain assignment, no
validation. -/
def set_kernel_size (s : CorrelatorSettings) (size : Vector2i) :
    CorrelatorSettings :=
  { s with kernel_size := size }

/-! ## Images and the rasterization pipeline of `CorrelatorView::prerasterize` -/

/-- A single-channel raster tile: its dimensions and a pixel function.
Pixel values are only meaningful on `[0, cols) × [0, rows)`; a total
function is the shallow embedding of the in-memory `ImageView`. -/
structure SourceImage where
  cols : ℤ
  rows : ℤ
  pix : ℤ → ℤ → ℚ

/-- `PixelDisparity<float>`: horizontal offset `h`, vertical offset `v`
and the `missing` flag. -/
structure PixelDisparity where
  h : ℚ
  v : ℚ
  missing : Bool
deriving DecidableEq

/-- A disparity tile (`ImageView<PixelDisparity<float>>`). -/
structure DisparityImage where
  cols : ℤ
  rows : ℤ
  pix : ℤ → ℤ → PixelDisparity

/-- Reading pixel `(i,j)` of a raw image: defined only in bounds. -/
def imageGet (img : ℤ → ℤ → ℚ) (cols rows i j : ℤ) : Option ℚ :=
  if 0 ≤ i ∧ i < cols ∧ 0 ≤ j ∧ j < rows then some (img i j) else none

/-- Modelled from the spec: `edge_extend(view, policy)` "removes domain
bounds; reads outside the parent's nominal extent are satisfied by
`policy` instead of failing" (`vw/Image/EdgeExtension.h` is not among
the inspected sources).  `CorrelatorView::prerasterize` instantiates the
policy as `ZeroEdgeExtension`, i.e. constant zero fill. -/
def edgeExtendGet (img : ℤ → ℤ → ℚ) (cols rows i j : ℤ) : ℚ :=
  match imageGet img cols rows i j with
  | some v => v
  | none => 0

/-- The right crop region before kernel padding:
`BBox2i(bbox.min() + m_search_range.min(), bbox.max() + m_search_range.max())`. -/
def right_crop_unpadded (s : CorrelatorSettings) (bbox : BBox2i) : BBox2i :=
  ⟨bbox.minPt + s.search_range.minPt, bbox.maxPt + s.search_range.maxPt⟩

/-- The left crop region before kernel padding: `bbox` with its max
corner moved to `bbox.min() + (right_crop.width, right_crop.height)` so
that the two crops have equal size. -/
def left_crop_unpadded (s : CorrelatorSettings) (bbox : BBox2i) : BBox2i :=
  ⟨bbox.minPt, bbox.minPt + ⟨(right_crop_unpadded s bbox).width,
                             (right_crop_unpadded s bbox).height⟩⟩

/-- Kernel padding as performed by `prerasterize`: the min corner is
decreased and the max corner increased by
`Vector2i(m_kernel_size[0], m_kernel_size[1])` — the full kernel size
per side. -/
def kernel_pad (s : CorrelatorSettings) (b : BBox2i) : BBox2i :=
  ⟨b.minPt - s.kernel_size, b.maxPt + s.kernel_size⟩

/-- `left_crop_bbox` as computed by `prerasterize`. -/
def left_crop_bbox (s : CorrelatorSettings) (bbox : BBox2i) : BBox2i :=
  kernel_pad s (left_crop_unpadded s bbox)

/-- `right_crop_bbox` as computed by `prerasterize`. -/
def right_crop_bbox (s : CorrelatorSettings) (bbox : BBox2i) : BBox2i :=
  kernel_pad s (right_crop_unpadded s bbox)

/-- `crop(edge_extend(m_left_image, ZeroEdgeExtension()), left_crop_bbox)`
materialized: pixel `(i,j)` of the crop is the edge-extended read at
`left_crop_bbox.min + (i,j)`. -/
def cropped_left_image (s : CorrelatorSettings) (left : SourceImage)
    (bbox : BBox2i) : SourceImage :=
  ⟨(left_crop_bbox s bbox).width, (left_crop_bbox s bbox).height,
   fun i j => edgeExtendGet left.pix left.cols left.rows
     ((left_crop_bbox s bbox).minPt.x + i) ((left_crop_bbox s bbox).minPt.y + j)⟩

/-- `crop(edge_extend(m_right_image, ZeroEdgeExtension()), right_crop_bbox)`
materialized. -/
def cropped_right_image (s : CorrelatorSettings) (right : SourceImage)
    (bbox : BBox2i) : SourceImage :=
  ⟨(right_crop_bbox s bbox).width, (right_crop_bbox s bbox).height,
   fun i j => edgeExtendGet right.pix right.cols right.rows
     ((right_crop_bbox s bbox).minPt.x + i) ((right_crop_bbox s bbox).minPt.y + j)⟩

/-- Modelled from the spec: the Pyramid Correlator is a "pure algorithm:
given two equal-size concrete tiles, a search range, kernel size,
thresholds and subpixel flags, returns a disparity tile"
(`vw/Stereo/PyramidCorrelator.h` is not among the inspected sources).
It is abstracted as an arbitrary function of the constructor arguments
`prerasterize` passes to it and of the two materialized tiles; the
debug-output path is a diagnostic side channel and takes no part in the
returned tile. -/
def PyramidCorrelatorFn : Type :=
  BBox2i → Vector2i → ℚ → ℚ → Bool → Bool → Bool →
    SourceImage → SourceImage → DisparityImage

/-- The search bbox handed to the `PyramidCorrelator` constructor:
`BBox2(0, 0, m_search_range.width(), m_search_range.height())`. -/
def pyramid_search_bbox (s : CorrelatorSettings) : BBox2i :=
  BBox2i.mk4 0 0 s.search_range.width s.search_range.height

/-- The post-correlation adjustment loop of `prerasterize`: every pixel
whose `missing()` flag is unset gets `m_search_range.min().x()` added to
its `h()` and `m_search_range.min().y()` added to its `v()`; `missing`
pixels are left untouched. -/
def offset_disparities (s : CorrelatorSettings) (d : DisparityImage) :
    DisparityImage :=
  { d with pix := fun u v =>
      let p := d.pix u v
      if p.missing then p
      else { p with h := p.h + (s.search_range.minPt.x : ℚ),
                    v := p.v + (s.search_range.minPt.y : ℚ) } }

/-- The result type of `prerasterize`:
`CropView<ImageView<PixelDisparity<float>>>`, i.e. the full disparity
map together with the crop window selecting the caller's bbox. -/
structure CropViewD where
  child : DisparityImage
  crop_box : BBox2i

/-- Modelled from the spec: a `crop` node "restricts/offsets the
coordinate domain", so the crop view's columns and rows are the crop
window's width and height (`vw/Image/Manipulation.h` is not among the
inspected sources). -/
def CropViewD.cols (c : CropViewD) : ℤ := c.crop_box.width

/-- Rows of a crop view: the crop window's height. -/
def CropViewD.rows (c : CropViewD) : ℤ := c.crop_box.height

/-- The raw disparity map produced inside `prerasterize`:
`correlator(cropped_left_image, cropped_right_image, m_preproc_func)`
where `correlator` was constructed from the stored settings. -/
def correlator_output (s : CorrelatorSettings) (pc : PyramidCorrelatorFn)
    (left right : SourceImage) (bbox : BBox2i) : DisparityImage :=
  pc (pyramid_search_bbox s) s.kernel_size
     s.cross_corr_threshold s.corr_score_threshold
     s.do_h_subpixel s.do_v_subpixel s.do_affine_subpixel
     (cropped_left_image s left bbox) (cropped_right_image s right bbox)

/-- `CorrelatorView::prerasterize(bbox)`: compute the two padded crop
regions, materialize both tiles through zero edge extension, run the
pyramid correlator on them, add the search range's minimum offset to
every non-missing disparity, and return the result re-cropped to
`BBox2i(m_kernel_size[0] - bbox.min().x(), m_kernel_size[1] - bbox.min().y(),
bbox.width(), bbox.height())`. -/
def prerasterize (s : CorrelatorSettings) (pc : PyramidCorrelatorFn)
    (left right : SourceImage) (bbox : BBox2i) : CropViewD :=
  ⟨offset_disparities s (correlator_output s pc left right bbox),
   BBox2i.mk4 (s.kernel_size.x - bbox.minPt.x) (s.kernel_size.y - bbox.minPt.y)
     bbox.width bbox.height⟩

/-! ## `vw/Image/ImageResource.h`: `ImageFormat` and `ImageBuffer` -/

/-- `vw::PixelFormatEnum` (a representative closed set; the only point
the claims need is that the unknown format has no channels). -/
inductive PixelFormatEnum where
  | unknownFmt
  | gray
  | grayA
  | rgb
  | rgba
deriving DecidableEq

/-- `vw::ChannelTypeEnum` (a representative closed set). -/
inductive ChannelTypeEnum where
  | unknownChan
  | uint8
  | int16
  | uint16
  | float32
deriving DecidableEq

/-- Modelled from the spec: `num_channels_nothrow` resolves a pixel
format enum to its channel count, returning a non-positive value for an
unknown format ("both enums resolve to known, non-zero sizes";
`vw/Image/PixelTypeInfo.h` is not among the inspected sources). -/
def num_channels_nothrow : PixelFormatEnum → ℤ
  | .unknownFmt => 0
  | .gray => 1
  | .grayA => 2
  | .rgb => 3
  | .rgba => 4

/-- Modelled from the spec: `channel_size_nothrow` resolves a channel
type enum to its byte size, returning a non-positive value for an
unknown type (`vw/Image/PixelTypeInfo.h` is not among the inspected
sources). -/
def channel_size_nothrow : ChannelTypeEnum → ℤ
  | .unknownChan => 0
  | .uint8 => 1
  | .int16 => 2
  | .uint16 => 2
  | .float32 => 4

/-- `vw::ImageFormat`: dimensions (`uint32`, modelled as `ℕ`), pixel
format and channel type. -/
structure ImageFormat where
  cols : ℕ
  rows : ℕ
  planes : ℕ
  pixel_format : PixelFormatEnum
  channel_type : ChannelTypeEnum
deriving DecidableEq

/-- `ImageFormat::complete()`:
`cols != 0 && rows != 0 && planes != 0 && num_channels_nothrow(pixel_format) > 0 && channel_size_nothrow(channel_type) > 0`. -/
def ImageFormat.complete (f : ImageFormat) : Bool :=
  f.cols != 0 && f.rows != 0 && f.planes != 0 &&
  decide (num_channels_nothrow f.pixel_format > 0) &&
  decide (channel_size_nothrow f.channel_type > 0)

/-- `vw::ImageBuffer`: a non-owning view of pixel storage.  The `data`
pointer is modelled as a byte address into an unbounded address space;
the three strides are signed byte strides (`ssize_t`). -/
structure ImageBuffer where
  data : ℤ
  format : ImageFormat
  cstride : ℤ
  rstride : ℤ
  pstride : ℤ
  unpremultiplied : Bool
deriving DecidableEq

/-- `ImageBuffer::cropped(bbox)`: copies the buffer, advances the data
pointer by `cstride*bbox.min().x() + rstride*bbox.min().y()` and
assigns `bbox.width()`/`bbox.height()` to the format's `cols`/`rows`
(an `int32 → uint32` assignment, hence the `% 2^32`).  Nothing else is
touched and no storage is allocated. -/
def ImageBuffer.cropped (b : ImageBuffer) (bbox : BBox2i) : ImageBuffer :=
  { b with
    data := b.data + b.cstride * bbox.minPt.x + b.rstride * bbox.minPt.y
    format := { b.format with
      cols := (bbox.width % (2 ^ 32 : ℤ)).toNat
      rows := (bbox.height % (2 ^ 32 : ℤ)).toNat } }

/-! ## `CorrelatorView::operator()` -/

/-- `CorrelatorView::operator()(double i, double j, int32 p)`:
unconditionally `vw_throw(NoImplErr() << ...)`; the coordinates are
never inspected. -/
def correlatorView_pixel_access (s : CorrelatorSettings) (i j : ℚ)
    (p : ℤ) : Except VWError PixelDisparity :=
  .error (.noImplErr
    "CorrelatorView::operator()(double i, double j, int32 p) has not been implemented.")

/-! ## The Levenberg-Marquardt inner step-acceptance loop
(`Optimization.h`, `vw::math::levenberg_marquardt`)

Within one outer iteration the inner loop repeatedly computes a trial
parameter vector and its residual norm `norm_try`; on a rejected step it
multiplies `lambda` by 10 and retries.  Because the loop body is
re-entered only while every previous trial was rejected, `lambda` and
hence the trial point are a deterministic function of the attempt
index, so the sequence of trial norms is abstracted as an oracle
`trial : ℕ → ℚ` indexed by the value of the `iterations` counter when
the trial is computed.  The loop guard is `norm_try > norm_start`;
`iterations` is incremented each pass and once it exceeds 5 the code
sets `shortCircuit = true` and forces `norm_try = norm_start`, which
exits the loop.  `fuel` is an artifact of the embedding; the theorems
show it is never exhausted once it is at least 6. -/
def lm_inner_loop (norm_start : ℚ) (trial : ℕ → ℚ) :
    ℕ → ℕ → ℕ × Bool
  | 0, iterations => (iterations, false)
  | fuel + 1, iterations =>
    let norm_try := trial iterations
    let iterations' := iterations + 1
    if iterations' > 5 then (iterations', true)
    else if norm_try > norm_start then
      lm_inner_loop norm_start trial fuel iterations'
    else (iterations', false)

/-- The convergence test run right after the inner loop:
`converged` becomes true when
`(norm_start - norm_try)/norm_start < REL_TOL` or
`norm_try < ABS_TOL`, with `REL_TOL = ABS_TOL = 0.001`. -/
def lm_outer_converged (norm_start norm_try : ℚ) : Bool :=
  decide ((norm_start - norm_try) / norm_start < 1/1000) ||
  decide (norm_try < 1/1000)

/-! ## Reference predicates and concrete sample values

`claimed_failure_condition` transcribes the failure condition as the
specification claim words it ("more than one channel or more than one
plane"), for comparison against `correlatorView_construct`; the sample
values below give concrete inputs for witnesses and counterexamples. -/

/-- The constructor-failure condition exactly as the specification claim
words it: the views differ in columns or rows, or either view has more
than one channel or more than one plane. -/
def claimed_failure_condition (l r : ViewFormat) : Prop :=
  l.cols ≠ r.cols ∨ l.rows ≠ r.rows ∨ 1 < l.channels ∨ 1 < l.planes ∨
  1 < r.channels ∨ 1 < r.planes

instance (l r : ViewFormat) : Decidable (claimed_failure_condition l r) := by
  unfold claimed_failure_condition
  infer_instance

/-- A small concrete configuration: kernel `4×4`, search range
`[-1,1)²`. -/
def sampleSettings : CorrelatorSettings :=
  { search_range := BBox2i.mk4 (-1) (-1) 2 2
    kernel_size := ⟨4, 4⟩
    do_h_subpixel := true
    do_v_subpixel := true
    do_affine_subpixel := false
    cross_corr_threshold := 2
    corr_score_threshold := 13/10
    debugTag := "" }

/-- A concrete `4×4` request bbox. -/
def sampleBBox : BBox2i := BBox2i.mk4 0 0 4 4

/-- A concrete `2×2` constant source image. -/
def sampleImage : SourceImage := ⟨2, 2, fun _ _ => 5⟩

/-- A concrete pyramid-correlator stand-in returning a `1×1` tile whose
pixel has `h = 2`, `v = 3`, `missing = false`. -/
def samplePC : PyramidCorrelatorFn :=
  fun _ _ _ _ _ _ _ _ _ => ⟨1, 1, fun _ _ => ⟨2, 3, false⟩⟩

/-- A concrete image buffer: base address 100, `10×10` single-plane
8-bit grayscale, strides `(1, 10, 100)`. -/
def sampleBuffer : ImageBuffer :=
  ⟨100, ⟨10, 10, 1, .gray, .uint8⟩, 1, 10, 100, false⟩

/-- A concrete crop window at `(2,3)`, size `4×5`. -/
def sampleCropBox : BBox2i := BBox2i.mk4 2 3 4 5

/-! ## Theorems -/

/-- C8: for every `ImageFormat f`, `f.complete()` returns true if and
only if `f.cols`, `f.rows` and `f.planes` are all nonzero, the number of
channels of `f.pixel_format` is positive, and the channel size of
`f.channel_type` is positive. -/
theorem imageFormat_complete_iff (f : ImageFormat) :
    f.complete = true ↔
      (f.cols ≠ 0 ∧ f.rows ≠ 0 ∧ f.planes ≠ 0 ∧
       0 < num_channels_nothrow f.pixel_format ∧
       0 < channel_size_nothrow f.channel_type) := by
  simp [ImageFormat.complete, and_assoc]

/-- C9: `ImageBuffer::cropped(bbox)` changes only the data handle's base
offset (advanced by `cstride*bbox.min.x + rstride*bbox.min.y`) and the
format's column/row extent (set to the bbox's width and height); the
three strides, the plane count, the pixel format, the channel type and
the `unpremultiplied` flag are unchanged, and the result aliases the
same storage (no allocation). -/
theorem imageBuffer_cropped_frame (b : ImageBuffer) (bbox : BBox2i)
    (hw0 : 0 ≤ bbox.width) (hw : bbox.width < 2 ^ 32)
    (hh0 : 0 ≤ bbox.height) (hh : bbox.height < 2 ^ 32) :
    (b.cropped bbox).data =
        b.data + b.cstride * bbox.minPt.x + b.rstride * bbox.minPt.y ∧
    ((b.cropped bbox).format.cols : ℤ) = bbox.width ∧
    ((b.cropped bbox).format.rows : ℤ) = bbox.height ∧
    (b.cropped bbox).cstride = b.cstride ∧
    (b.cropped bbox).rstride = b.rstride ∧
    (b.cropped bbox).pstride = b.pstride ∧
    (b.cropped bbox).format.planes = b.format.planes ∧
    (b.cropped bbox).format.pixel_format = b.format.pixel_format ∧
    (b.cropped bbox).format.channel_type = b.format.channel_type ∧
    (b.cropped bbox).unpremultiplied = b.unpremultiplied := by
  refine ⟨rfl, ?_, ?_, rfl, rfl, rfl, rfl, rfl, rfl, rfl⟩
  · show ((bbox.width % (2 ^ 32 : ℤ)).toNat : ℤ) = bbox.width
    rw [Int.toNat_of_nonneg (Int.emod_nonneg _ (by norm_num))]
    exact Int.emod_eq_of_lt hw0 hw
  · show ((bbox.height % (2 ^ 32 : ℤ)).toNat : ℤ) = bbox.height
    rw [Int.toNat_of_nonneg (Int.emod_nonneg _ (by norm_num))]
    exact Int.emod_eq_of_lt hh0 hh

/-- Witness for C9 at the concrete buffer and crop window. -/
theorem imageBuffer_cropped_frame_witness :
    (sampleBuffer.cropped sampleCropBox).data = 132 ∧
    ((sampleBuffer.cropped sampleCropBox).format.cols : ℤ) = 4 ∧
    (sampleBuffer.cropped sampleCropBox).rstride = 10 := by
  have h := imageBuffer_cropped_frame sampleBuffer sampleCropBox
    (by decide) (by decide) (by decide) (by decide)
  exact ⟨h.1.trans (by decide), h.2.1.trans (by decide),
         h.2.2.2.2.1.trans (by decide)⟩

/-- C10: per-pixel access through `CorrelatorView::operator()(i, j, p)`
unconditionally throws `NoImplErr`, for every view configuration and
every coordinate; disparity values are never obtainable by single-pixel
access. -/
theorem correlatorView_pixel_access_throws (s : CorrelatorSettings)
    (i j : ℚ) (p : ℤ) :
    correlatorView_pixel_access s i j p =
      .error (.noImplErr
        "CorrelatorView::operator()(double i, double j, int32 p) has not been implemented.") :=
  rfl

/-- C7: rasterization of a `CorrelatorView` is deterministic: two calls
of `prerasterize` with the same bbox, the same source views, the same
correlator and equal configuration return identical disparity tiles. -/
theorem prerasterize_deterministic (sa sb : CorrelatorSettings)
    (pc : PyramidCorrelatorFn) (left right : SourceImage) (bbox : BBox2i)
    (h : sa = sb) :
    prerasterize sa pc left right bbox = prerasterize sb pc left right bbox := by
  rw [h]

/-- Witness for C7 at concrete inputs. -/
theorem prerasterize_deterministic_witness :
    prerasterize sampleSettings samplePC sampleImage sampleImage sampleBBox =
      prerasterize sampleSettings samplePC sampleImage sampleImage sampleBBox :=
  prerasterize_deterministic sampleSettings sampleSettings samplePC
    sampleImage sampleImage sampleBBox rfl

/-- C3: for every non-empty bbox, the disparity tile returned by
`prerasterize(bbox)` is cropped to exactly `bbox`: its width equals
`bbox.width()` and its height equals `bbox.height()`. -/
theorem prerasterize_tile_size_matches_bbox (s : CorrelatorSettings)
    (pc : PyramidCorrelatorFn) (left right : SourceImage) (bbox : BBox2i)
    (h : ¬ bbox.isEmpty) :
    CropViewD.cols (prerasterize s pc left right bbox) = bbox.width ∧
    CropViewD.rows (prerasterize s pc left right bbox) = bbox.height := by
  constructor
  · show (BBox2i.mk4 (s.kernel_size.x - bbox.minPt.x)
      (s.kernel_size.y - bbox.minPt.y) bbox.width bbox.height).width = bbox.width
    simp [BBox2i.mk4, BBox2i.width]
  · show (BBox2i.mk4 (s.kernel_size.x - bbox.minPt.x)
      (s.kernel_size.y - bbox.minPt.y) bbox.width bbox.height).height = bbox.height
    simp [BBox2i.mk4, BBox2i.height]

/-- Witness for C3 at concrete inputs. -/
theorem prerasterize_tile_size_matches_bbox_witness :
    ¬ sampleBBox.isEmpty ∧
    CropViewD.cols (prerasterize sampleSettings samplePC sampleImage
      sampleImage sampleBBox) = sampleBBox.width :=
  ⟨by decide,
   (prerasterize_tile_size_matches_bbox sampleSettings samplePC sampleImage
     sampleImage sampleBBox (by decide)).1⟩

/-- Counterexample to C5 as stated: on two identical views with one
channel and zero planes, the constructor throws (the plane count is not
exactly 1), although the claim's failure condition — dimensions differ,
or more than one channel, or more than one plane — does not hold. -/
theorem construct_more_than_one_iff_refuted :
    constructionSucceeds ⟨10, 10, 1, 0⟩ ⟨10, 10, 1, 0⟩ = false ∧
    ¬ claimed_failure_condition ⟨10, 10, 1, 0⟩ ⟨10, 10, 1, 0⟩ := by
  decide

/-- C5 (amended): the `CorrelatorView` constructor fails if and only if
the two source views differ in columns or rows, or either view's
channel count or plane count is not exactly 1; on two equal-size views
with exactly one channel and one plane it succeeds. -/
theorem construct_succeeds_iff_formats_valid (l r : ViewFormat) :
    (constructionSucceeds l r = false ↔
      (l.cols ≠ r.cols ∨ l.rows ≠ r.rows ∨ l.channels ≠ 1 ∨ l.planes ≠ 1 ∨
       r.channels ≠ 1 ∨ r.planes ≠ 1)) ∧
    (constructionSucceeds l r = true ↔
      (l.cols = r.cols ∧ l.rows = r.rows ∧ l.channels = 1 ∧ l.planes = 1 ∧
       r.channels = 1 ∧ r.planes = 1)) := by
  unfold constructionSucceeds correlatorView_construct
  split_ifs with h1 h2 <;> simp <;> tauto

/-- Counterexample to C4 as stated: a correlator is configured with
kernel size `(0,0)` and an inverted search range through a successful
construction followed by the setters, and no error of any kind is
raised on the way — the misconfigured state is simply reached. -/
theorem nonpositive_kernel_accepted_no_error :
    (correlatorView_construct ⟨10, 10, 1, 1⟩ ⟨10, 10, 1, 1⟩).map
      (fun s => ((set_kernel_size s ⟨0, 0⟩).kernel_size,
                 (set_search_range s (BBox2i.mk4 0 0 (-5) (-5))).search_range)) =
      .ok (⟨0, 0⟩, BBox2i.mk4 0 0 (-5) (-5)) :=
  rfl

/-- C4 (amended): neither the constructor nor the setters validate the
kernel size or the search range.  Construction checks only the image
formats and installs fixed (valid) defaults, and `set_kernel_size` /
`set_search_range` store any requested value — including non-positive
kernels and inverted ranges — without error; such misconfiguration is
not detected at construction time. -/
theorem kernel_and_search_range_unvalidated (l r : ViewFormat)
    (s : CorrelatorSettings) (h : correlatorView_construct l r = .ok s)
    (t : CorrelatorSettings) (size : Vector2i) (range : BBox2i) :
    s.kernel_size = ⟨24, 24⟩ ∧
    s.search_range = BBox2i.mk4 (-50) (-50) 100 100 ∧
    (set_kernel_size t size).kernel_size = size ∧
    (set_search_range t range).search_range = range := by
  unfold correlatorView_construct at h
  split_ifs at h
  all_goals injection h with h
  all_goals subst h
  all_goals exact ⟨rfl, rfl, rfl, rfl⟩

/-- Witness for C4 (amended) at concrete inputs. -/
theorem kernel_and_search_range_unvalidated_witness :
    (set_kernel_size sampleSettings ⟨0, 0⟩).kernel_size = ⟨0, 0⟩ ∧
    (set_search_range sampleSettings (BBox2i.mk4 0 0 (-5) (-5))).search_range =
      BBox2i.mk4 0 0 (-5) (-5) := by
  have h := kernel_and_search_range_unvalidated ⟨10, 10, 1, 1⟩ ⟨10, 10, 1, 1⟩
    default_settings rfl sampleSettings ⟨0, 0⟩ (BBox2i.mk4 0 0 (-5) (-5))
  exact ⟨h.2.2.1, h.2.2.2⟩

/-- C2: for every pixel of the disparity tile produced by the pyramid
correlator, `prerasterize` adds the search range's minimum x offset to
its horizontal disparity and the minimum y offset to its vertical
disparity when the pixel is not missing, and leaves the pixel unchanged
when it is missing. -/
theorem disparity_offset_adjustment (s : CorrelatorSettings)
    (pc : PyramidCorrelatorFn) (left right : SourceImage) (bbox : BBox2i)
    (u v : ℤ) (hu0 : 0 ≤ u)
    (hu : u < (correlator_output s pc left right bbox).cols)
    (hv0 : 0 ≤ v)
    (hv : v < (correlator_output s pc left right bbox).rows) :
    (((correlator_output s pc left right bbox).pix u v).missing = false →
      (prerasterize s pc left right bbox).child.pix u v =
        ⟨((correlator_output s pc left right bbox).pix u v).h +
           (s.search_range.minPt.x : ℚ),
         ((correlator_output s pc left right bbox).pix u v).v +
           (s.search_range.minPt.y : ℚ), false⟩) ∧
    (((correlator_output s pc left right bbox).pix u v).missing = true →
      (prerasterize s pc left right bbox).child.pix u v =
        (correlator_output s pc left right bbox).pix u v) := by
  constructor
  · intro hmiss
    show (offset_disparities s (correlator_output s pc left right bbox)).pix u v = _
    simp [offset_disparities, hmiss]
  · intro hmiss
    show (offset_disparities s (correlator_output s pc left right bbox)).pix u v = _
    simp [offset_disparities, hmiss]

/-- Witness for C2 at concrete inputs: the sample correlator emits
`(h,v) = (2,3)` non-missing, the sample search range minimum is
`(-1,-1)`, and the returned tile carries `(1,2)`. -/
theorem disparity_offset_adjustment_witness :
    ((correlator_output sampleSettings samplePC sampleImage sampleImage
        sampleBBox).pix 0 0).missing = false ∧
    (prerasterize sampleSettings samplePC sampleImage sampleImage
        sampleBBox).child.pix 0 0 = ⟨1, 2, false⟩ := by
  have h := (disparity_offset_adjustment sampleSettings samplePC sampleImage
    sampleImage sampleBBox 0 0 (by decide) (by decide) (by decide)
    (by decide)).1 rfl
  refine ⟨rfl, h.trans ?_⟩
  norm_num [correlator_output, samplePC, sampleSettings, BBox2i.mk4,
    PixelDisparity.mk.injEq]

/-- Counterexample to C1 as stated: with kernel size `(4,4)`, the claim
predicts that the left crop region's min corner is decreased by half
the kernel, `(2,2)`; the code decreases it by the full kernel size
`(4,4)`. -/
theorem crop_padding_half_kernel_refuted :
    (left_crop_bbox sampleSettings sampleBBox).minPt ≠
      (left_crop_unpadded sampleSettings sampleBBox).minPt -
        ⟨sampleSettings.kernel_size.x / 2, sampleSettings.kernel_size.y / 2⟩ ∧
    (left_crop_bbox sampleSettings sampleBBox).minPt =
      (left_crop_unpadded sampleSettings sampleBBox).minPt -
        sampleSettings.kernel_size := by
  decide

/-- C1 (amended): after the left and right crop regions are computed
from bbox and the configured search range, both are padded by the full
kernel size on every side (min corner decreased and max corner
increased by `(kernel_width, kernel_height)`), and out-of-bounds reads
during materialization of the padded crops are satisfied by (zero)
edge extension rather than failing. -/
theorem crop_padding_full_kernel_and_edge_extension
    (s : CorrelatorSettings) (bbox : BBox2i) (img : SourceImage)
    (i j : ℤ) (q : ℚ) :
    (left_crop_bbox s bbox).minPt =
      (left_crop_unpadded s bbox).minPt - s.kernel_size ∧
    (left_crop_bbox s bbox).maxPt =
      (left_crop_unpadded s bbox).maxPt + s.kernel_size ∧
    (right_crop_bbox s bbox).minPt =
      (right_crop_unpadded s bbox).minPt - s.kernel_size ∧
    (right_crop_bbox s bbox).maxPt =
      (right_crop_unpadded s bbox).maxPt + s.kernel_size ∧
    (imageGet img.pix img.cols img.rows
        ((left_crop_bbox s bbox).minPt.x + i)
        ((left_crop_bbox s bbox).minPt.y + j) = none →
      (cropped_left_image s img bbox).pix i j = 0) ∧
    (imageGet img.pix img.cols img.rows
        ((left_crop_bbox s bbox).minPt.x + i)
        ((left_crop_bbox s bbox).minPt.y + j) = some q →
      (cropped_left_image s img bbox).pix i j = q) ∧
    (imageGet img.pix img.cols img.rows
        ((right_crop_bbox s bbox).minPt.x + i)
        ((right_crop_bbox s bbox).minPt.y + j) = none →
      (cropped_right_image s img bbox).pix i j = 0) ∧
    (imageGet img.pix img.cols img.rows
        ((right_crop_bbox s bbox).minPt.x + i)
        ((right_crop_bbox s bbox).minPt.y + j) = some q →
      (cropped_right_image s img bbox).pix i j = q) := by
  refine ⟨rfl, rfl, rfl, rfl, ?_, ?_, ?_, ?_⟩ <;>
    · intro h
      simp [cropped_left_image, cropped_right_image, edgeExtendGet, h]

/-- Witness for C1 (amended): reading pixel `(0,0)` of the padded left
crop on the concrete configuration lands at `(-4,-4)`, out of bounds of
the `2×2` source, and the materialized value is the zero fill. -/
theorem crop_padding_full_kernel_and_edge_extension_witness :
    imageGet sampleImage.pix sampleImage.cols sampleImage.rows
      ((left_crop_bbox sampleSettings sampleBBox).minPt.x + 0)
      ((left_crop_bbox sampleSettings sampleBBox).minPt.y + 0) = none ∧
    (cropped_left_image sampleSettings sampleImage sampleBBox).pix 0 0 = 0 :=
  ⟨by decide,
   (crop_padding_full_kernel_and_edge_extension sampleSettings sampleBBox
     sampleImage 0 0 0).2.2.2.2.1 (by decide)⟩

/-- The inner loop never exhausts its fuel: once the remaining fuel
covers the distance from the current counter value to the cap, the
result does not depend on the fuel. -/
theorem lm_inner_loop_fuel_indep (ns : ℚ) (trial : ℕ → ℚ) :
    ∀ f1 f2 iters, iters ≤ 5 → 6 - iters ≤ f1 → 6 - iters ≤ f2 →
      lm_inner_loop ns trial f1 iters = lm_inner_loop ns trial f2 iters := by
  intro f1
  induction f1 with
  | zero =>
    intro f2 iters h5 hf1 _
    exfalso
    omega
  | succ f ih =>
    intro f2 iters h5 hf1 hf2
    cases f2 with
    | zero =>
      exfalso
      omega
    | succ f2 =>
      simp only [lm_inner_loop]
      by_cases hit : iters + 1 > 5
      · simp [hit]
      · simp only [if_neg hit]
        by_cases hn : trial iters > ns
        · simp only [if_pos hn]
          exact ih f2 (iters + 1) (by omega) (by omega) (by omega)
        · simp [hn]

/-- The counter value the inner loop exits with never exceeds 6. -/
theorem lm_inner_loop_count_le (ns : ℚ) (trial : ℕ → ℚ) :
    ∀ fuel iters, iters ≤ 5 → (lm_inner_loop ns trial fuel iters).1 ≤ 6 := by
  intro fuel
  induction fuel with
  | zero =>
    intro iters h5
    simp only [lm_inner_loop]
    omega
  | succ f ih =>
    intro iters h5
    simp only [lm_inner_loop]
    by_cases hit : iters + 1 > 5
    · simp only [if_pos hit]
      omega
    · simp only [if_neg hit]
      by_cases hn : trial iters > ns
      · simp only [if_pos hn]
        exact ih (iters + 1) (by omega)
      · simp only [if_neg hn]
        omega

/-- If every trial step is rejected, the loop runs its full 6 passes
and exits through the short-circuit branch. -/
theorem lm_inner_loop_allfail (ns : ℚ) (trial : ℕ → ℚ)
    (h : ∀ k, trial k > ns) :
    ∀ fuel iters, iters ≤ 5 → 6 - iters ≤ fuel →
      lm_inner_loop ns trial fuel iters = (6, true) := by
  intro fuel
  induction fuel with
  | zero =>
    intro iters h5 hf
    exfalso
    omega
  | succ f ih =>
    intro iters h5 hf
    simp only [lm_inner_loop]
    by_cases hit : iters + 1 > 5
    · have h6 : iters = 5 := by omega
      subst h6
      simp
    · simp only [if_neg hit, if_pos (h iters)]
      exact ih (iters + 1) (by omega) (by omega)

/-- C6: the inner step-acceptance loop of `levenberg_marquardt` performs
only a bounded number of iterations: its result is independent of any
sufficient fuel (the loop body is entered at most 6 times, the counter
cap `iterations > 5` always firing first), the exit value of the
iteration counter is at most 6, and when every trial step is rejected
the loop exits through the short-circuit branch reporting
non-convergence (`shortCircuit = true`), upon which the forced
`norm_try = norm_start` makes the outer relative-improvement test
succeed, so the optimizer returns to its caller instead of looping
indefinitely. -/
theorem levenberg_marquardt_inner_bounded (ns : ℚ) (trial : ℕ → ℚ)
    (fuel : ℕ) (hfuel : 6 ≤ fuel) :
    lm_inner_loop ns trial fuel 0 = lm_inner_loop ns trial 6 0 ∧
    (lm_inner_loop ns trial fuel 0).1 ≤ 6 ∧
    ((∀ k, trial k > ns) →
      lm_inner_loop ns trial fuel 0 = (6, true) ∧
      lm_outer_converged ns ns = true) := by
  refine ⟨?_, ?_, ?_⟩
  · exact lm_inner_loop_fuel_indep ns trial fuel 6 0 (by omega) (by omega)
      (by omega)
  · exact lm_inner_loop_count_le ns trial fuel 0 (by omega)
  · intro h
    refine ⟨lm_inner_loop_allfail ns trial h fuel 0 (by omega) (by omega), ?_⟩
    simp [lm_outer_converged]

/-- Witness for C6: a run whose trial norm is always 1 against a
starting norm of 0 — every step is rejected — caps at 6 iterations,
reports the short circuit and passes the outer convergence test. -/
theorem levenberg_marquardt_inner_bounded_witness :
    lm_inner_loop 0 (fun _ => 1) 6 0 = (6, true) ∧
    lm_outer_converged 0 0 = true :=
  (levenberg_marquardt_inner_bounded 0 (fun _ => 1) 6 (by omega)).2.2
    (fun _ => one_pos)

end VW
